import Mathlib

/-!
Shallow embedding of `youtube_dl/extractor/contar.py` (the Contar catalog
extractor): the API envelope error-unwrap step, the authenticated API call,
the login precondition, the stream-format and subtitle resolvers, the
season-number scan, and the single-episode / series playlist assembly.

Python dicts are modelled as association lists with in-place overwrite
(`dictInsert`), optional dict keys as `Option`, and Python exceptions as
`Except String`.  External network calls (`_download_json`) are oracles
passed in as function arguments, and a `Nat` counts how many such calls a
code path performs.
-/

namespace Contar

/-- A value found under `error.message` in an API envelope: either a plain
string or a mapping of named sub-errors (a JSON object of strings, kept in
insertion order like a Python dict). -/
inductive ErrMessage where
  | str : String → ErrMessage
  | map : List (String × String) → ErrMessage
deriving DecidableEq, Repr

/-- The optional `error` object of an envelope; `result.get('error', {})
.get('message')` reads its optional `message` key. -/
structure ErrField where
  message : Option ErrMessage
deriving DecidableEq, Repr

/-- Opaque JSON payload carried under the envelope's `data` key.  The
claims never inspect its structure, only whether it is handed back. -/
structure JData where
  val : Nat
deriving DecidableEq, Repr

/-- An API response envelope: `{ data: ..., error: { message: ... } }`,
each key optional (a missing key is `none`). -/
structure Envelope where
  error : Option ErrField
  data : Option JData
deriving DecidableEq, Repr

/-- Python truthiness of the value bound to `error` in `_handle_errors`:
`None`, `""` and `{}` are falsy, everything else truthy. -/
def msg_truthy : Option ErrMessage → Bool
  | none => false
  | some (.str s) => s ≠ ""
  | some (.map m) => m ≠ []

/-- The text interpolated for `%s` from the error value after the
`isinstance(error, dict)` branch: a dict is replaced by
`', '.join(error.values())` (values in insertion order), a string is used
as is. -/
def msg_text : ErrMessage → String
  | .str s => s
  | .map m => String.intercalate ", " (m.map Prod.snd)

/-- `_handle_errors(result)` (contar.py lines 17-23): reads
`result.get('error', {}).get('message')`; when that value is truthy,
raises `ExtractorError('%s said: %s' % (self.IE_NAME, error))` — returned
here as `some text` (the raised error's message); otherwise returns
nothing (`none`).  `ExtractorError` with `expected=True` keeps its message
verbatim (spec section 7: fatal errors are surfaced verbatim). -/
def handle_errors (ie_name : String) (result : Envelope) : Option String :=
  match result.error.bind ErrField.message with
  | none => none
  | some e =>
    if msg_truthy (some e) then some (ie_name ++ " said: " ++ msg_text e)
    else none

/-- Python's in-place `d[k] = v` on a dict modelled as an association
list: an existing binding of `k` is overwritten in place (its position
kept), a new key is appended at the end (insertion order). -/
def dictInsert (k : String) (v : α) : List (String × α) → List (String × α)
  | [] => [(k, v)]
  | (k₀, v₀) :: rest =>
    if k₀ = k then (k, v) :: rest else (k₀, v₀) :: dictInsert k v rest

/-- Lines 26-27 of `_call_api`: `if self._auth_token:
headers['Authorization'] = 'Bearer ' + self._auth_token`.  The token is
`none` before assignment, and the empty string is falsy, so injection
happens only for a non-empty token.  The caller's `headers` dict itself is
mutated; the returned list is the dict's contents after the call. -/
def inject_auth (token : Option String) (headers : List (String × String)) :
    List (String × String) :=
  match token with
  | none => headers
  | some t => if t = "" then headers else dictInsert "Authorization" ("Bearer " ++ t) headers

/-- `_call_api(path, video_id, headers, note)` (lines 25-33): injects the
bearer token into `headers`, downloads the JSON envelope (`download` is
the `_download_json` oracle, fed the outgoing headers), runs
`_handle_errors` on it, and only then returns `result['data']`.  The
first component is the headers dict's contents after the call (visible to
the caller, since the dict is mutated in place); the second is the normal
or raised outcome: the envelope error text, or a `KeyError` when `data`
is absent, or the data payload. -/
def call_api (ie_name : String) (token : Option String)
    (headers : List (String × String))
    (download : List (String × String) → Envelope) :
    List (String × String) × Except String JData :=
  let headers := inject_auth token headers
  let result := download headers
  (headers,
    match handle_errors ie_name result with
    | some e => .error e
    | none =>
      match result.data with
      | some d => .ok d
      | none => .error "KeyError: data")

/-- Contents of the shared mutable default dict of `_call_api`'s
`headers={}` parameter after a sequence of calls that all omit `headers`:
CPython evaluates the default once, so every such call reads and mutates
the same dict.  `tokens` lists the value of `self._auth_token` at each
successive call. -/
def default_headers_after (tokens : List (Option String)) :
    List (String × String) :=
  tokens.foldl (fun h t => inject_auth t h) []

/-- One entry of the subtitle lists built by `_get_subtitles`:
`{'url': sub.get('url'), 'ext': 'srt'}`. -/
structure SubEntry where
  url : Option String
  ext : String
deriving DecidableEq, Repr

/-- A raw subtitle descriptor.  `lang` is required: the source calls
`sub.get('lang').lower()`, which presumes the key is present (the spec's
`SubtitleDescriptor` lists `lang` as a field); `url` is read with `.get`
and may be absent. -/
structure Sub where
  lang : String
  url : Option String
deriving DecidableEq, Repr

/-- `sub.get('lang').lower()`: Python's `str.lower`, written as a map
over the character list so that it reduces in the kernel (ASCII
lower-casing; the claims only exercise ASCII language tags). -/
def py_lower (s : String) : String :=
  String.mk (s.data.map Char.toLower)

/-- `_get_subtitles(subtitles, video_id)` (lines 90-96): builds a dict
keyed by the lowercased `lang`, each key mapped to a one-element list
`[{'url': ..., 'ext': 'srt'}]`; `subs[lang] = ...` overwrites on
duplicate keys.  `video_id` is accepted but unused, as in the source. -/
def get_subtitles (subtitles : List Sub) (video_id : Option String) :
    List (String × List SubEntry) :=
  subtitles.foldl
    (fun subs sub => dictInsert (py_lower sub.lang) [⟨sub.url, "srt"⟩] subs) []

/-- One playable format record.  The external manifest parsers
(`_extract_m3u8_formats` / `_extract_mpd_formats`, in `common.py`, not
under src/) produce these; the claims treat them as opaque apart from a
sort key. -/
structure Format where
  format_id : String
  quality : Int
deriving DecidableEq, Repr

/-- A raw stream descriptor; both keys are read with `.get` and may be
absent. -/
structure Stream where
  url : Option String
  type : Option String
deriving DecidableEq, Repr

/-- Modelled from the spec: `_sort_formats` lives in the `InfoExtractor`
base class (`common.py`), which is not under src/.  Spec section 4.3 only
requires a deterministic, stable total ordering of the collected formats
(ascending preference, best last); a stable insertion sort on the quality
key realizes that. -/
def insertFormat (f : Format) : List Format → List Format
  | [] => [f]
  | g :: rest =>
    if f.quality < g.quality then f :: g :: rest else g :: insertFormat f rest

/-- Modelled from the spec: the format ranking applied at the end of
`_get_formats` (`self._sort_formats(formats)`), as a stable sort. -/
def sort_formats (formats : List Format) : List Format :=
  formats.foldl (fun acc f => insertFormat f acc) []

/-- `_get_formats(videos, video_id)` (lines 98-112): for each stream
descriptor, dispatch on its `type` — `'HLS'` goes to the m3u8 collaborator
(`em`), `'DASH'` to the MPD collaborator (`ed`), anything else is skipped
— extending one accumulating list, which is then ranked. -/
def get_formats (em ed : Option String → Option String → List Format)
    (videos : List Stream) (video_id : Option String) : List Format :=
  sort_formats (videos.foldl
    (fun formats stream =>
      if stream.type = some "HLS" then formats ++ em stream.url video_id
      else if stream.type = some "DASH" then formats ++ ed stream.url video_id
      else formats) [])

/-- The value of a raw episode's `subtitles` key: a wrapper object whose
optional `data` key holds the descriptor list
(`video['subtitles'].get('data', [])`). -/
structure SubsField where
  data : Option (List Sub)
deriving DecidableEq, Repr

/-- A raw episode object as consumed by `_get_video_info` and the season
scan.  Every key read with `.get` is an `Option`; `subtitles` is an
`Option` because the source indexes it with `video['subtitles']`, which
raises `KeyError` when the key is absent. -/
structure Video where
  id : Option String
  name : Option String
  synopsis : Option String
  serie : Option String
  serie_name : Option String
  episode : Option Int
  length : Option Int
  posterImage : Option String
  streams : Option (List Stream)
  subtitles : Option SubsField
deriving DecidableEq, Repr

/-- One season of a series: `name` is read with `.get` (nullable, used as
the season number), `videos` stands for `season['videos'].get('data',
[])` — the `videos` key is required by the source's indexing, its inner
`data` key defaults to the empty list, so the episode list is total
here. -/
structure Season where
  name : Option Int
  videos : List Video
deriving DecidableEq, Repr

/-- A `SeriesInfo` resource: `name`, `story_large` and `year` are read
with `.get`; `seasons` stands for `serie_info['seasons'].get('data', [])`
(the `seasons` key is required by the source's indexing). -/
structure SerieInfo where
  name : Option String
  story_large : Option String
  year : Option Int
  seasons : List Season
deriving DecidableEq, Repr

/-- The season loop of `_get_season_number` (lines 82-88): scan the
seasons in returned order; within a season, scan its episode list in
returned order and on the first episode whose `id` equals `video_id`
return that season's `name` (`find?` models the inner loop's early
return); after all seasons, return `None`.  A match in a season whose
`name` is absent also yields `none`, exactly as the Python returns the
`None` it read. -/
def season_scan (video_id : Option String) : List Season → Option Int
  | [] => none
  | season :: rest =>
    match season.videos.find? (fun episode => episode.id == video_id) with
    | some _ => season.name
    | none => season_scan video_id rest

/-- `_get_season_number(serie_info, video_id)`. -/
def get_season_number (serie_info : SerieInfo) (video_id : Option String) :
    Option Int :=
  season_scan video_id serie_info.seasons

/-- Modelled from the spec: `int_or_none` (`youtube_dl/utils.py`) is not
under src/; spec sections 3 and 4.4 describe its outputs as "nullable
int" / "coerced to integer or null".  The values it is applied to in this
embedding are already integers or null, on which it is the identity. -/
def int_or_none (v : Option Int) : Option Int := v

/-- The `base` dict passed to `_get_video_info`: an optional cached
`SeriesInfo` and an optional season number from the traversal context.
An absent key and a key set to `None` both read back as `none`; a
`SeriesInfo` value is always truthy here (it is a populated object, per
the data model), while a season number is falsy when `None` or `0`
(Python truthiness). -/
structure Base where
  serie_info : Option SerieInfo
  season_number : Option Int
deriving Repr

/-- The assembled info dict of `_get_video_info` (lines 58-74). -/
structure Info where
  id : Option String
  title : Option String
  description : Option String
  series : Option String
  episode : Option String
  episode_number : Option Int
  season_number : Option Int
  season_id : Option String
  episode_id : Option String
  duration : Option Int
  thumbnail : Option String
  release_year : Option Int
  formats : List Format
  subtitles : List (String × List SubEntry)
deriving DecidableEq, Repr

/-- The envelope of a `serie/<id>` resource response: an optional
`error` object (checked by `_handle_errors`) and the `data` payload,
which the caller interprets as a `SerieInfo`. -/
structure SerieEnvelope where
  error : Option ErrField
  data : Option SerieInfo
deriving DecidableEq, Repr

/-- `_handle_errors` applied to a serie resource envelope — the same
source function, which only reads `result.get('error', {}).get
('message')`; it gets its own signature here because this envelope's
`data` payload is a `SerieInfo`. -/
def handle_errors_serie (ie_name : String) (result : SerieEnvelope) : Option String :=
  match result.error.bind ErrField.message with
  | none => none
  | some e =>
    if msg_truthy (some e) then some (ie_name ++ " said: " ++ msg_text e)
    else none

/-- `_get_serie_info(serie_id)` (lines 78-80): `'serie/' + serie_id`
raises `TypeError` when `serie_id` is `None` — before any network call.
Otherwise the call goes through `_call_api`: one download (`dl` is the
`_download_json` oracle for serie resources, the HTTP layer including
the bearer token absorbed into it), the envelope unwrapped by
`_handle_errors` before `result['data']` is returned (`KeyError` when
absent).  The `Nat` counts network calls performed. -/
def get_serie_info (ie_name : String) (dl : String → SerieEnvelope)
    (serie_id : Option String) : Except String SerieInfo × Nat :=
  match serie_id with
  | none => (.error "TypeError: cannot concatenate str and NoneType", 0)
  | some sid =>
    let result := dl sid
    match handle_errors_serie ie_name result with
    | some e => (.error e, 1)
    | none =>
      match result.data with
      | some si => (.ok si, 1)
      | none => (.error "KeyError: data", 1)

/-- `_get_video_info(video, video_id, base)` (lines 49-76).  The `Nat`
counts the `SeriesInfo` fetches the call performs.  In source order:
formats are built from `video.get('streams', [])`; `video['subtitles']`
raises `KeyError` when absent (before any fetch); `serie_info` is the
cached one from `base` or, when absent, a fresh `_get_serie_info` fetch —
whose raised errors (`TypeError` on a missing `serie` key, envelope
errors, `KeyError`) propagate out of the call; `season_number` is
`base`'s value unless falsy (`None` or `0`), in which case it is
recomputed by the season scan (`x or y` on Python ints). -/
def get_video_info (ie : String)
    (em ed : Option String → Option String → List Format)
    (dl : String → SerieEnvelope) (video : Video) (base : Base) :
    Except String Info × Nat :=
  let formats := get_formats em ed (video.streams.getD []) video.id
  match video.subtitles with
  | none => (.error "KeyError: subtitles", 0)
  | some sf =>
    let subtitles := get_subtitles (sf.data.getD []) video.id
    let fetched : Except String SerieInfo × Nat :=
      match base.serie_info with
      | some si => (.ok si, 0)
      | none => get_serie_info ie dl video.serie
    match fetched.1 with
    | .error e => (.error e, fetched.2)
    | .ok serie_info =>
      let season_number : Option Int :=
        match base.season_number with
        | some n => if n = 0 then get_season_number serie_info video.id else some n
        | none => get_season_number serie_info video.id
      (.ok
        { id := video.id
          title := video.name
          description := video.synopsis
          series := video.serie_name
          episode := video.name
          episode_number := int_or_none video.episode
          season_number := int_or_none season_number
          season_id := video.serie
          episode_id := video.id
          duration := int_or_none video.length
          thumbnail := video.posterImage
          release_year := int_or_none serie_info.year
          formats := formats
          subtitles := subtitles }, fetched.2)

/-- The value `_get_video_info` assembles for an episode reached through
the series traversal (where `base` holds the series and the enclosing
season's `name`), as a pure function of the traversal position.  Mirrors
the `.ok` branch of `get_video_info` at `base = ⟨some si, sn⟩`. -/
def serie_entry (em ed : Option String → Option String → List Format)
    (si : SerieInfo) : Option Int × Video → Info
  | (sn, ep) =>
    { id := ep.id
      title := ep.name
      description := ep.synopsis
      series := ep.serie_name
      episode := ep.name
      episode_number := int_or_none ep.episode
      season_number := int_or_none (match sn with
        | some n => if n = 0 then get_season_number si ep.id else some n
        | none => get_season_number si ep.id)
      season_id := ep.serie
      episode_id := ep.id
      duration := int_or_none ep.length
      thumbnail := ep.posterImage
      release_year := int_or_none si.year
      formats := get_formats em ed (ep.streams.getD []) ep.id
      subtitles := match ep.subtitles with
        | some sf => get_subtitles (sf.data.getD []) ep.id
        | none => [] }

/-- The nested season/episode loop of `ContarSerieIE._real_extract`
(lines 218-222) flattened: each episode paired with the `name` of the
season enclosing it, seasons and episodes in returned order. -/
def season_episode_pairs : List Season → List (Option Int × Video)
  | [] => []
  | season :: rest =>
    season.videos.map (fun ep => (season.name, ep)) ++ season_episode_pairs rest

/-- The entry-accumulating loop of `ContarSerieIE._real_extract`: each
episode is built with `base = {serie_info: si, season_number: <enclosing
season's name>}`; the first raised error aborts the whole traversal.  The
`Nat` sums the `SeriesInfo` fetches performed while building entries. -/
def build_entries (ie : String)
    (em ed : Option String → Option String → List Format)
    (dl : String → SerieEnvelope) (si : SerieInfo) :
    List (Option Int × Video) → Except String (List Info × Nat)
  | [] => .ok ([], 0)
  | (sn, ep) :: rest =>
    match get_video_info ie em ed dl ep ⟨some si, sn⟩ with
    | (.ok info, k) =>
      match build_entries ie em ed dl si rest with
      | .ok (entries, n) => .ok (info :: entries, k + n)
      | .error e => .error e
    | (.error e, _) => .error e

/-- Modelled from the spec: `playlist_result` lives in the
`InfoExtractor` base class (`common.py`), not under src/; spec section 3
describes a Playlist as `{ id, title, description, entries }`. -/
structure Playlist where
  id : String
  title : Option String
  description : Option String
  entries : List Info
deriving DecidableEq, Repr

/-- `ContarSerieIE._real_extract` (lines 207-225) after the initial
`SeriesInfo` fetch: traverse the seasons, build one entry per episode
with the traversal-context base, and wrap the entries in a playlist whose
title and description are the series' own `name` and `story_large`.  The
`Nat` counts the `SeriesInfo` fetches performed beyond the initial one. -/
def serie_real_extract (ie : String)
    (em ed : Option String → Option String → List Format)
    (dl : String → SerieEnvelope) (serie_id : String)
    (serie_info : SerieInfo) : Except String (Playlist × Nat) :=
  match build_entries ie em ed dl serie_info (season_episode_pairs serie_info.seasons) with
  | .ok (entries, n) =>
    .ok ({ id := serie_id, title := serie_info.name,
           description := serie_info.story_large, entries := entries }, n)
  | .error e => .error e

/-- The `authenticate` response dict: an optional `error` object (checked
by `_handle_errors`) and the `token` key, which `result['token']` then
requires. -/
structure AuthResult where
  error : Option ErrField
  token : Option String
deriving DecidableEq, Repr

/-- `_handle_errors` applied to the authenticate response — the same
source function, which only reads `result.get('error', {}).get
('message')`; it gets its own signature here because the auth response
carries a `token` key instead of `data`. -/
def handle_errors_auth (ie_name : String) (result : AuthResult) : Option String :=
  match result.error.bind ErrField.message with
  | none => none
  | some e =>
    if msg_truthy (some e) then some (ie_name ++ " said: " ++ msg_text e)
    else none

/-- Modelled from the spec: `raise_login_required` (`common.py`, not
under src/) raises a fatal "login required" error. -/
def login_required_error : String := "login required"

/-- `_real_initialize` (lines 35-47): read the login info; when the email
is absent, raise the login-required error at once.  Otherwise POST the
credentials (`post` is the `_download_json` oracle for the authenticate
endpoint), unwrap envelope errors, and store `result['token']` (a
`KeyError` when absent).  The `Nat` counts network calls performed. -/
def real_initialize (ie_name : String) (email password : Option String)
    (post : String → Option String → AuthResult) :
    Except String String × Nat :=
  match email with
  | none => (.error login_required_error, 0)
  | some e =>
    let result := post e password
    match handle_errors_auth ie_name result with
    | some err => (.error err, 1)
    | none =>
      match result.token with
      | some t => (.ok t, 1)
      | none => (.error "KeyError: token", 1)

/-- The extractor life cycle: `_real_initialize` runs first and a raise
there prevents `_real_extract` (and with it every resource fetch) from
running; `extract` consumes the stored token and reports its own network
call count. -/
def run_extractor (ie_name : String) (email password : Option String)
    (post : String → Option String → AuthResult)
    (extract : String → Except String JData × Nat) :
    Except String JData × Nat :=
  match real_initialize ie_name email password post with
  | (.error e, n) => (.error e, n)
  | (.ok token, n) =>
    let r := extract token
    (r.1, n + r.2)

/-- A minimal raw episode with the given id, its `subtitles` key present
and empty, all other keys absent. -/
def mkEp (i : String) : Video :=
  ⟨some i, none, none, none, none, none, none, none, none, some ⟨some []⟩⟩

/-- An adversarial `SeriesInfo`: the episode id `"x"` appears both in a
season named `5` and in a later season named `0`. -/
def siX : SerieInfo :=
  ⟨none, none, none, [⟨some 5, [mkEp "x"]⟩, ⟨some 0, [mkEp "x"]⟩]⟩

/-- The spec's series example: seasons named `1` and `2`, holding
episodes `e1`, `e2` and `e3`. -/
def siW : SerieInfo :=
  ⟨some "Vidas de Radio", some "story", some 2018,
    [⟨some 1, [mkEp "e1", mkEp "e2"]⟩, ⟨some 2, [mkEp "e3"]⟩]⟩

/-- Overwriting or appending a binding makes it a member. -/
theorem mem_dictInsert_self (k : String) (v : α) (l : List (String × α)) :
    (k, v) ∈ dictInsert k v l := by
  induction l with
  | nil => simp [dictInsert]
  | cons hd tl ih =>
    obtain ⟨k₀, v₀⟩ := hd
    by_cases h : k₀ = k
    · simp [dictInsert, h]
    · simp only [dictInsert, if_neg h]
      exact List.mem_cons_of_mem _ ih

/-- A binding whose key differs from the inserted one survives the
insertion unchanged. -/
theorem mem_dictInsert_of_ne {kv : String × α} {k : String} {l : List (String × α)}
    (v : α) (hne : kv.1 ≠ k) (hmem : kv ∈ l) : kv ∈ dictInsert k v l := by
  induction l with
  | nil => cases hmem
  | cons hd tl ih =>
    obtain ⟨k₀, v₀⟩ := hd
    rcases List.mem_cons.1 hmem with h | h
    · subst h
      have hk : k₀ ≠ k := hne
      simp [dictInsert, if_neg hk]
    · by_cases h₀ : k₀ = k
      · simp only [dictInsert, if_pos h₀]
        exact List.mem_cons_of_mem _ h
      · simp only [dictInsert, if_neg h₀]
        exact List.mem_cons_of_mem _ (ih h)

/-- `List.lookup` after a `dictInsert`: the inserted key maps to the new
value, every other key is unaffected. -/
theorem lookup_dictInsert (k key : String) (v : α) (l : List (String × α)) :
    List.lookup key (dictInsert k v l)
      = if k = key then some v else List.lookup key l := by
  induction l with
  | nil =>
    by_cases h : k = key
    · simp [dictInsert, List.lookup, h]
    · have h' : ¬ key = k := fun hc => h hc.symm
      have hb : (key == k) = false := by simp [h']
      simp [dictInsert, List.lookup, h, hb]
  | cons hd tl ih =>
    obtain ⟨k₀, v₀⟩ := hd
    by_cases h₀ : k₀ = k
    · subst h₀
      by_cases h₁ : k₀ = key
      · simp [dictInsert, List.lookup, h₁]
      · have h₁' : ¬ key = k₀ := fun hc => h₁ hc.symm
        have hb : (key == k₀) = false := by simp [h₁']
        simp [dictInsert, List.lookup, h₁, hb]
    · by_cases h₁ : k₀ = key
      · subst h₁
        have h₀' : ¬ k = k₀ := fun hc => h₀ hc.symm
        simp [dictInsert, List.lookup, if_neg h₀, h₀']
      · have h₁' : ¬ key = k₀ := fun hc => h₁ hc.symm
        have hb : (key == k₀) = false := by simp [h₁']
        simp [dictInsert, List.lookup, if_neg h₀, h₁, hb, ih]

/-- `find?` over a list with one element appended on the right. -/
theorem find?_append_singleton (p : α → Bool) (l : List α) (a : α) :
    (l ++ [a]).find? p
      = match l.find? p with
        | some b => some b
        | none => if p a then some a else none := by
  induction l with
  | nil =>
    by_cases ha : p a
    · simp [List.find?, ha]
    · simp [List.find?, ha]
  | cons b l ih =>
    by_cases hb : p b = true
    · simp [List.cons_append, List.find?_cons_of_pos _ hb]
    · simp only [List.cons_append, List.find?_cons_of_neg _ hb, ih]

/-- Folding `dictInsert` over subtitle descriptors realizes
last-write-wins: a key's final value comes from the last descriptor whose
lowercased `lang` equals it, and keys never written keep their initial
binding. -/
theorem lookup_get_subtitles_fold (k : String) (subs : List Sub)
    (init : List (String × List SubEntry)) :
    List.lookup k (subs.foldl
        (fun m s => dictInsert (py_lower s.lang) [⟨s.url, "srt"⟩] m) init)
      = match subs.reverse.find? (fun s => py_lower s.lang == k) with
        | some s => some [⟨s.url, "srt"⟩]
        | none => List.lookup k init := by
  induction subs generalizing init with
  | nil => simp
  | cons s rest ih =>
    simp only [List.foldl_cons, List.reverse_cons]
    rw [ih, find?_append_singleton]
    cases hfind : rest.reverse.find? (fun s => py_lower s.lang == k) with
    | some s₁ => rfl
    | none =>
      by_cases hk : py_lower s.lang = k
      · simp [hk, lookup_dictInsert]
      · have hb : (py_lower s.lang == k) = false := by simp [hk]
        simp [hb, lookup_dictInsert, hk]

/-- `season_scan` is a first-match linear search: it returns the `name`
of the first season containing a matching episode id. -/
theorem season_scan_eq_find (vid : Option String) (seasons : List Season) :
    season_scan vid seasons
      = match seasons.find?
            (fun season => season.videos.any (fun e => e.id == vid)) with
        | some season => season.name
        | none => none := by
  induction seasons with
  | nil => rfl
  | cons season rest ih =>
    cases hf : season.videos.find? (fun episode => episode.id == vid) with
    | some e =>
      have hp := List.find?_some hf
      have hany : season.videos.any (fun e => e.id == vid) = true :=
        List.any_eq_true.2 ⟨e, List.mem_of_find?_eq_some hf, hp⟩
      rw [List.find?_cons_of_pos rest hany]
      simp [season_scan, hf]
    | none =>
      have hany : ¬ season.videos.any (fun e => e.id == vid) = true := by
        rw [List.any_eq_true]
        rintro ⟨e, he, hp⟩
        exact absurd hp (by simpa using List.find?_eq_none.1 hf e he)
      rw [List.find?_cons_of_neg rest hany]
      simp [season_scan, hf, ih]

/-- Building an episode's info with the series-traversal base performs no
fetch and yields exactly the `serie_entry` value. -/
theorem get_video_info_with_base (ie : String)
    (em ed : Option String → Option String → List Format)
    (dl : String → SerieEnvelope) (si : SerieInfo)
    (sn : Option Int) (ep : Video) (sf : SubsField)
    (h : ep.subtitles = some sf) :
    get_video_info ie em ed dl ep ⟨some si, sn⟩
      = (Except.ok (serie_entry em ed si (sn, ep)), 0) := by
  simp [get_video_info, serie_entry, h]

/-- When every episode in the flattened traversal carries its `subtitles`
key, the entry loop succeeds, maps `serie_entry` over the traversal in
order, and performs zero fetches. -/
theorem build_entries_ok (ie : String)
    (em ed : Option String → Option String → List Format)
    (dl : String → SerieEnvelope) (si : SerieInfo)
    (l : List (Option Int × Video))
    (h : ∀ p ∈ l, p.2.subtitles ≠ none) :
    build_entries ie em ed dl si l = .ok (l.map (serie_entry em ed si), 0) := by
  induction l with
  | nil => rfl
  | cons p rest ih =>
    obtain ⟨sn, ep⟩ := p
    have hep : ep.subtitles ≠ none := h (sn, ep) (List.mem_cons_self _ _)
    cases hsf : ep.subtitles with
    | none => exact absurd hsf hep
    | some sf =>
      simp only [build_entries, get_video_info_with_base ie em ed dl si sn ep sf hsf,
        ih (fun q hq => h q (List.mem_cons_of_mem _ hq)), List.map_cons, Nat.add_zero]

/-- Every pair produced by the flattened traversal comes from a season of
the list: its first component is that season's `name` and its second an
episode of that season. -/
theorem mem_season_episode_pairs {p : Option Int × Video}
    {seasons : List Season} (hp : p ∈ season_episode_pairs seasons) :
    ∃ season, season ∈ seasons ∧ p.1 = season.name ∧ p.2 ∈ season.videos := by
  induction seasons with
  | nil => cases hp
  | cons season rest ih =>
    simp only [season_episode_pairs] at hp
    rcases List.mem_append.1 hp with h | h
    · rcases List.mem_map.1 h with ⟨ep, hep, rfl⟩
      exact ⟨season, List.mem_cons_self _ _, rfl, hep⟩
    · obtain ⟨s, hs, h1, h2⟩ := ih h
      exact ⟨s, List.mem_cons_of_mem _ hs, h1, h2⟩

/-- Once the shared dict holds an `Authorization` entry, any further
sequence of headerless `_call_api` invocations keeps one there. -/
theorem lookup_auth_foldl_inject (ts : List (Option String))
    (h : List (String × String))
    (hh : (List.lookup "Authorization" h).isSome = true) :
    (List.lookup "Authorization"
      (ts.foldl (fun acc t => inject_auth t acc) h)).isSome = true := by
  induction ts generalizing h with
  | nil => exact hh
  | cons t ts ih =>
    refine ih (inject_auth t h) ?_
    match t with
    | none => exact hh
    | some s =>
      by_cases hs : s = ""
      · simpa [inject_auth, hs] using hh
      · simp [inject_auth, hs, lookup_dictInsert]

end Contar

/-- C1: the claim says the raised error's text EQUALS the comma-joined
values, `"bad, worse"`.  The code raises `'%s said: %s' % (IE_NAME,
error)`, so on the envelope `{"error":{"message":{"field1":"bad",
"field2":"worse"}}}` the raised text is `"Contar said: bad, worse"`,
which is not `"bad, worse"`. -/
theorem C1_counterexample :
    Contar.handle_errors "Contar"
      ⟨some ⟨some (.map [("field1", "bad"), ("field2", "worse")])⟩, none⟩
      = some "Contar said: bad, worse"
    ∧ ("Contar said: bad, worse" : String) ≠ "bad, worse" := by
  constructor
  · rfl
  · decide

/-- C1 (amended): for every envelope whose `error.message` is a non-empty
mapping of named sub-errors, the error-unwrap step raises an error whose
text is the extractor name, the literal `" said: "`, then the mapping's
values joined with `", "` — so for `{"field1":"bad","field2":"worse"}`
the joined values `"bad, worse"` appear as the suffix after the
`"<IE_NAME> said: "` prefix, not as the whole text. -/
theorem C1_handle_errors_map_joins_values (ie : String)
    (m : List (String × String)) (h : m ≠ []) (d : Option Contar.JData) :
    Contar.handle_errors ie ⟨some ⟨some (.map m)⟩, d⟩
      = some (ie ++ " said: " ++ String.intercalate ", " (m.map Prod.snd)) := by
  simp [Contar.handle_errors, Contar.msg_truthy, Contar.msg_text, h]

/-- C1 witness: the amended statement evaluated at the spec's own
example envelope. -/
theorem C1_witness :
    Contar.handle_errors "Contar"
      ⟨some ⟨some (.map [("field1", "bad"), ("field2", "worse")])⟩, none⟩
      = some ("Contar" ++ " said: " ++
          String.intercalate ", " ([("field1", "bad"), ("field2", "worse")].map Prod.snd)) :=
  C1_handle_errors_map_joins_values "Contar"
    [("field1", "bad"), ("field2", "worse")] (by decide) none

/-- C3: `_get_subtitles` keys its result by the lowercased `lang` with
last-write-wins on duplicates: on `[{lang:"ES",...},{lang:"es",...}]` the
result has exactly one key `"es"`, holding the second descriptor's URL
with ext `"srt"`; and in general a key's value comes from the last
descriptor whose lowercased `lang` equals it. -/
theorem C3_get_subtitles_last_write_wins :
    (∀ (vid u₁ u₂ : Option String),
      Contar.get_subtitles [⟨"ES", u₁⟩, ⟨"es", u₂⟩] vid
        = [("es", [⟨u₂, "srt"⟩])])
    ∧ ∀ (vid : Option String) (subs : List Contar.Sub) (k : String),
        List.lookup k (Contar.get_subtitles subs vid)
          = (subs.reverse.find? (fun s => Contar.py_lower s.lang == k)).map
              (fun s => [⟨s.url, "srt"⟩]) := by
  constructor
  · intro vid u₁ u₂
    have h₁ : Contar.py_lower "ES" = "es" := by decide
    have h₂ : Contar.py_lower "es" = "es" := by decide
    simp [Contar.get_subtitles, Contar.dictInsert, h₁, h₂]
  · intro vid subs k
    simp only [Contar.get_subtitles]
    rw [Contar.lookup_get_subtitles_fold]
    cases hfind : subs.reverse.find? (fun s => Contar.py_lower s.lang == k) with
    | some s => simp
    | none => simp

/-- C2: on a stream-descriptor list all of whose entries carry a `type`
other than `"HLS"` and `"DASH"` (the empty list included), `_get_formats`
returns the empty list — every descriptor is skipped by the dispatch, and
ranking the empty collection yields the empty list; no error is raised. -/
theorem C2_get_formats_unsupported_empty
    (em ed : Option String → Option String → List Contar.Format)
    (videos : List Contar.Stream) (vid : Option String)
    (h : ∀ s ∈ videos, s.type ≠ some "HLS" ∧ s.type ≠ some "DASH") :
    Contar.get_formats em ed videos vid = [] := by
  simp only [Contar.get_formats]
  have hloop : ∀ (vs : List Contar.Stream),
      (∀ s ∈ vs, s.type ≠ some "HLS" ∧ s.type ≠ some "DASH") →
      vs.foldl (fun formats stream =>
        if stream.type = some "HLS" then formats ++ em stream.url vid
        else if stream.type = some "DASH" then formats ++ ed stream.url vid
        else formats) ([] : List Contar.Format) = [] := by
    intro vs
    induction vs with
    | nil => intro _; rfl
    | cons s rest ih =>
      intro hall
      have hs := hall s (List.mem_cons_self s rest)
      simp only [List.foldl_cons, if_neg hs.1, if_neg hs.2]
      exact ih (fun x hx => hall x (List.mem_cons_of_mem s hx))
  rw [hloop videos h]
  rfl

/-- C2 witness: two descriptors with unsupported types, fed to
collaborators that would have produced formats, still give `[]`. -/
theorem C2_witness :
    Contar.get_formats (fun _ _ => [⟨"hls-1", 1⟩]) (fun _ _ => [⟨"dash-1", 2⟩])
      [⟨some "u", some "SMOOTH"⟩, ⟨some "v", none⟩] (some "vid-1") = [] :=
  C2_get_formats_unsupported_empty
    (fun _ _ => [⟨"hls-1", 1⟩]) (fun _ _ => [⟨"dash-1", 2⟩])
    [⟨some "u", some "SMOOTH"⟩, ⟨some "v", none⟩] (some "vid-1") (by decide)

/-- C6: whenever the downloaded envelope makes `_handle_errors` raise,
`_call_api` propagates exactly that error and never reaches
`return result['data']` — the caller gets the error, never data. -/
theorem C6_call_api_error_before_data (ie : String) (token : Option String)
    (headers : List (String × String))
    (download : List (String × String) → Contar.Envelope) (e : String)
    (h : Contar.handle_errors ie (download (Contar.inject_auth token headers))
          = some e) :
    (Contar.call_api ie token headers download).2 = Except.error e := by
  simp [Contar.call_api, h]

/-- C6 witness: an envelope carrying both an error and a `data` payload
still yields only the error. -/
theorem C6_witness :
    (Contar.call_api "Contar" none []
        (fun _ => ⟨some ⟨some (.str "boom")⟩, some ⟨7⟩⟩)).2
      = Except.error "Contar said: boom" :=
  C6_call_api_error_before_data "Contar" none []
    (fun _ => ⟨some ⟨some (.str "boom")⟩, some ⟨7⟩⟩) "Contar said: boom" (by decide)

/-- C8: the claim says EVERY caller-supplied header entry is present
unchanged in the outgoing headers.  False when the caller itself supplies
an `Authorization` entry: with a session token the code overwrites it, so
the caller's entry `("Authorization", "X")` is gone. -/
theorem C8_counterexample :
    (Contar.call_api "Contar" (some "t") [("Authorization", "X")]
        (fun _ => ⟨none, some ⟨0⟩⟩)).1 = [("Authorization", "Bearer t")]
    ∧ ("Authorization", "X") ∉
        (Contar.call_api "Contar" (some "t") [("Authorization", "X")]
          (fun _ => ⟨none, some ⟨0⟩⟩)).1 := by
  constructor
  · rfl
  · decide

/-- C8 (amended): with a non-empty session token, every caller-supplied
header entry whose key is not `Authorization` (e.g. a `Referer`) is
present unchanged in the outgoing headers, and an
`Authorization: Bearer <token>` entry is present (replacing any
caller-supplied `Authorization`); with no token the outgoing headers are
exactly the caller-supplied ones. -/
theorem C8_call_api_merges_headers (ie t : String) (ht : t ≠ "")
    (headers : List (String × String))
    (download : List (String × String) → Contar.Envelope) :
    (∀ kv ∈ headers, kv.1 ≠ "Authorization" →
        kv ∈ (Contar.call_api ie (some t) headers download).1)
    ∧ ("Authorization", "Bearer " ++ t)
        ∈ (Contar.call_api ie (some t) headers download).1
    ∧ ∀ headers₂, (Contar.call_api ie none headers₂ download).1 = headers₂ := by
  refine ⟨?_, ?_, ?_⟩
  · intro kv hkv hne
    show kv ∈ Contar.inject_auth (some t) headers
    simp only [Contar.inject_auth, if_neg ht]
    exact Contar.mem_dictInsert_of_ne _ hne hkv
  · show ("Authorization", "Bearer " ++ t) ∈ Contar.inject_auth (some t) headers
    simp only [Contar.inject_auth, if_neg ht]
    exact Contar.mem_dictInsert_self _ _ _
  · intro headers₂
    rfl

/-- C8 witness: a caller-supplied `Referer` survives next to the injected
bearer token. -/
theorem C8_witness :
    (∀ kv ∈ [("Referer", "https://www.cont.ar/watch/x")], kv.1 ≠ "Authorization" →
        kv ∈ (Contar.call_api "Contar" (some "tok")
          [("Referer", "https://www.cont.ar/watch/x")] (fun _ => ⟨none, none⟩)).1)
    ∧ ("Authorization", "Bearer " ++ "tok")
        ∈ (Contar.call_api "Contar" (some "tok")
            [("Referer", "https://www.cont.ar/watch/x")] (fun _ => ⟨none, none⟩)).1
    ∧ ∀ headers₂,
        (Contar.call_api "Contar" none headers₂ (fun _ => ⟨none, none⟩)).1 = headers₂ :=
  C8_call_api_merges_headers "Contar" "tok" (by decide)
    [("Referer", "https://www.cont.ar/watch/x")] (fun _ => ⟨none, none⟩)

/-- C9: `_call_api` writes the `Authorization` entry into the very
headers dict the caller passed (the caller sees the mutated dict after
the call), and because the `headers={}` default is one shared dict, a
single authenticated call made without explicit headers leaves the entry
in that default dict for every later call that also omits headers. -/
theorem C9_default_headers_leak (ie t : String) (ht : t ≠ "")
    (headers : List (String × String))
    (download : List (String × String) → Contar.Envelope)
    (ts : List (Option String)) :
    (Contar.call_api ie (some t) headers download).1
      = Contar.dictInsert "Authorization" ("Bearer " ++ t) headers
    ∧ (List.lookup "Authorization"
        (Contar.default_headers_after (some t :: ts))).isSome = true := by
  constructor
  · show Contar.inject_auth (some t) headers = _
    simp [Contar.inject_auth, ht]
  · have h1 : Contar.default_headers_after (some t :: ts)
        = ts.foldl (fun acc tok => Contar.inject_auth tok acc)
            (Contar.inject_auth (some t) []) := rfl
    rw [h1]
    refine Contar.lookup_auth_foldl_inject ts _ ?_
    simp [Contar.inject_auth, ht, Contar.dictInsert, List.lookup]

/-- C9 witness: one authenticated headerless call, followed by two later
headerless calls (one unauthenticated), still shows the leaked entry. -/
theorem C9_witness :
    (Contar.call_api "Contar" (some "tok") [] (fun _ => ⟨none, none⟩)).1
      = Contar.dictInsert "Authorization" ("Bearer " ++ "tok") []
    ∧ (List.lookup "Authorization"
        (Contar.default_headers_after
          (some "tok" :: [none, some "tok2"]))).isSome = true :=
  C9_default_headers_leak "Contar" "tok" (by decide) [] (fun _ => ⟨none, none⟩)
    [none, some "tok2"]

/-- C4: `_get_season_number` scans the seasons in returned order, each
season's episode list in returned order, and returns the `name` of the
first season structurally containing an episode whose `id` matches —
first structural match wins — and returns `None`, not an error, when no
season contains the id. -/
theorem C4_get_season_number_first_match (si : Contar.SerieInfo)
    (vid : Option String) :
    Contar.get_season_number si vid
      = match si.seasons.find?
            (fun season => season.videos.any (fun e => e.id == vid)) with
        | some season => season.name
        | none => none := by
  simp only [Contar.get_season_number]
  exact Contar.season_scan_eq_find vid si.seasons

/-- C7: with no credentials (absent email), initialization fails at once
with the login-required error and performs zero network calls; the whole
extractor run then also performs zero network calls — no authentication
POST, no resource fetch. -/
theorem C7_login_required_no_network (ie : String) (password : Option String)
    (post : String → Option String → Contar.AuthResult)
    (extract : String → Except String Contar.JData × Nat) :
    Contar.real_initialize ie none password post
        = (Except.error Contar.login_required_error, 0)
    ∧ Contar.run_extractor ie none password post extract
        = (Except.error Contar.login_required_error, 0) :=
  ⟨rfl, rfl⟩

/-- C10: `_get_video_info` is partial in its raw-episode argument: a
missing `subtitles` key raises `KeyError` (before any fetch happens),
while a missing `streams` key merely defaults to the empty list.  The
empty-formats half holds on the paths where item assembly completes:
whatever the base and the serie fetch's outcome, a successful result
carries an empty formats list, and concretely the call succeeds with
empty formats when the traversal context supplies the series (the
standalone path can still raise out of `_get_serie_info`: `TypeError` on
a missing `serie` key, envelope errors, `KeyError`). -/
theorem C10_video_info_subtitles_required (ie : String)
    (em ed : Option String → Option String → List Contar.Format)
    (dl : String → Contar.SerieEnvelope) (video : Contar.Video)
    (base : Contar.Base) :
    (video.subtitles = none →
      Contar.get_video_info ie em ed dl video base
        = (Except.error "KeyError: subtitles", 0))
    ∧ (video.streams = none → ∀ info : Contar.Info,
      (Contar.get_video_info ie em ed dl video base).1 = Except.ok info →
      info.formats = [])
    ∧ (video.streams = none → video.subtitles ≠ none →
      ∀ si, base.serie_info = some si →
      ((Contar.get_video_info ie em ed dl video base).1.map Contar.Info.formats)
        = Except.ok []) := by
  refine ⟨?_, ?_, ?_⟩
  · intro h
    simp [Contar.get_video_info, h]
  · intro hs info heq
    cases hsub : video.subtitles with
    | none => simp [Contar.get_video_info, hsub] at heq
    | some sf =>
      cases hbs : base.serie_info with
      | some si =>
        simp only [Contar.get_video_info, hsub, hbs] at heq
        injection heq with h2
        subst h2
        simp [hs, Contar.get_formats, Contar.sort_formats]
      | none =>
        rcases hfe : Contar.get_serie_info ie dl video.serie with ⟨r, cnt⟩
        cases r with
        | error e =>
          simp [Contar.get_video_info, hsub, hbs, hfe] at heq
        | ok si =>
          simp only [Contar.get_video_info, hsub, hbs, hfe] at heq
          injection heq with h2
          subst h2
          simp [hs, Contar.get_formats, Contar.sort_formats]
  · intro hs hsub si hbs
    cases hsf : video.subtitles with
    | none => exact absurd hsf hsub
    | some sf =>
      simp [Contar.get_video_info, hsf, hbs, hs, Except.map,
        Contar.get_formats, Contar.sort_formats]

/-- C10 witness: the same raw episode with `subtitles` removed raises
(no fetch), and with `subtitles` present but `streams` removed, building
against a context-supplied series succeeds with an empty formats list. -/
theorem C10_witness :
    (Contar.get_video_info "Contar" (fun _ _ => []) (fun _ _ => [])
        (fun _ => ⟨none, none⟩)
        ⟨some "x", none, none, none, none, none, none, none, none, none⟩
        ⟨none, none⟩
      = (Except.error "KeyError: subtitles", 0))
    ∧ (⟨some "x", none, none, none, none, none, none, none, some "x",
        none, none, none, [], []⟩ : Contar.Info).formats = []
    ∧ ((Contar.get_video_info "Contar" (fun _ _ => []) (fun _ _ => [])
        (fun _ => ⟨none, none⟩)
        ⟨some "x", none, none, none, none, none, none, none, none,
          some ⟨some []⟩⟩
        ⟨some ⟨none, none, none, []⟩, none⟩).1.map Contar.Info.formats)
        = Except.ok [] :=
  ⟨(C10_video_info_subtitles_required "Contar" (fun _ _ => []) (fun _ _ => [])
      (fun _ => ⟨none, none⟩)
      ⟨some "x", none, none, none, none, none, none, none, none, none⟩
      ⟨none, none⟩).1 rfl,
   (C10_video_info_subtitles_required "Contar" (fun _ _ => []) (fun _ _ => [])
      (fun _ => ⟨none, none⟩)
      ⟨some "x", none, none, none, none, none, none, none, none,
        some ⟨some []⟩⟩
      ⟨some ⟨none, none, none, []⟩, none⟩).2.1 rfl
      ⟨some "x", none, none, none, none, none, none, none, some "x",
        none, none, none, [], []⟩ rfl,
   (C10_video_info_subtitles_required "Contar" (fun _ _ => []) (fun _ _ => [])
      (fun _ => ⟨none, none⟩)
      ⟨some "x", none, none, none, none, none, none, none, none,
        some ⟨some []⟩⟩
      ⟨some ⟨none, none, none, []⟩, none⟩).2.2 rfl (by decide)
      ⟨none, none, none, []⟩ rfl⟩

/-- C5: the claim says every item's season number comes from the
enclosing season's name via the traversal context.  Python's `x or y`
treats the number `0` as falsy, so for a season named `0` the shortcut is
skipped and the season number is recomputed by the first-match rescan —
here the episode id `"x"` also lives in an earlier season named `5`, so
the built entry carries season number `5` although its enclosing season
is named `0`. -/
theorem C5_counterexample :
    ((Contar.serie_real_extract "ContarSerie" (fun _ _ => []) (fun _ _ => [])
        (fun _ => ⟨none, none⟩) "sid" Contar.siX).map
      (fun r => r.1.entries.map Contar.Info.season_number))
      = Except.ok [some 5, some 5]
    ∧ Contar.siX.seasons.map Contar.Season.name = [some 5, some 0] := by
  constructor
  · rfl
  · rfl

/-- C5 (amended): for every `SeriesInfo` whose episodes all carry their
`subtitles` key (as the data model guarantees), series-mode resolution
builds exactly one item per episode, in the returned season order and
per-season episode order with no re-sorting, performs zero further
`SeriesInfo` fetches, and titles the playlist with the series' own
`name` and `story_large`; each item's season number equals the enclosing
season's name whenever that name is present and non-zero (for a null or
zero name the code rescans the season list first-match instead, still
without fetching). -/
theorem C5_serie_extract_traversal (ie : String)
    (em ed : Option String → Option String → List Contar.Format)
    (dl : String → Contar.SerieEnvelope) (sid : String)
    (si : Contar.SerieInfo)
    (h : ∀ season ∈ si.seasons, ∀ ep ∈ season.videos, ep.subtitles ≠ none) :
    Contar.serie_real_extract ie em ed dl sid si
      = .ok ({ id := sid, title := si.name, description := si.story_large,
               entries := (Contar.season_episode_pairs si.seasons).map
                 (Contar.serie_entry em ed si) }, 0)
    ∧ ∀ (n : Int) (ep : Contar.Video), n ≠ 0 →
        (some n, ep) ∈ Contar.season_episode_pairs si.seasons →
        (Contar.serie_entry em ed si (some n, ep)).season_number = some n := by
  constructor
  · have hpairs : ∀ p ∈ Contar.season_episode_pairs si.seasons,
        p.2.subtitles ≠ none := by
      intro p hp
      obtain ⟨season, hs, _, hep⟩ := Contar.mem_season_episode_pairs hp
      exact h season hs p.2 hep
    simp only [Contar.serie_real_extract,
      Contar.build_entries_ok ie em ed dl si _ hpairs]
  · intro n ep hn _
    simp [Contar.serie_entry, Contar.int_or_none, hn]

/-- C5 witness: a two-season series (names 1 and 2) resolves to three
entries in traversal order, no extra fetch, and the episode in season 2
gets season number 2 from the context. -/
theorem C5_witness :
    (Contar.serie_real_extract "ContarSerie" (fun _ _ => []) (fun _ _ => [])
        (fun _ => ⟨none, none⟩) "sid" Contar.siW
      = .ok ({ id := "sid", title := Contar.siW.name,
               description := Contar.siW.story_large,
               entries := (Contar.season_episode_pairs Contar.siW.seasons).map
                 (Contar.serie_entry (fun _ _ => []) (fun _ _ => [])
                   Contar.siW) }, 0))
    ∧ ∀ (n : Int) (ep : Contar.Video), n ≠ 0 →
        (some n, ep) ∈ Contar.season_episode_pairs Contar.siW.seasons →
        (Contar.serie_entry (fun _ _ => []) (fun _ _ => [])
          Contar.siW (some n, ep)).season_number = some n :=
  C5_serie_extract_traversal "ContarSerie" (fun _ _ => []) (fun _ _ => [])
    (fun _ => ⟨none, none⟩) "sid" Contar.siW (by decide)
